import Mathlib

/-!
Shallow embedding of the deal-evaluation pipeline of this repository:
`brazil_taxes.py` (tiered import tax and exchange-rate conversion) and
`deals_checker.py` (product-id extraction from marketplace links, the
per-product deal evaluation `check_product_for_deal`, and the ranking
function `filter_best_deals`).

Modelling conventions:
* Python floats are modelled as exact rationals (`ℚ`); the decimal
  constants of the source (`0.44`, `0.92`, …) become the corresponding
  rationals.
* Python strings are modelled as Lean `String`, scanned as `List Char`
  (the links handled by the source are ASCII).
* `None`-able Python values become `Option`.
* The module-level mutable exchange rate `USD_TO_BRL_RATE` is passed as
  an explicit `globalRate` argument; the function parameter default
  `usd_to_brl_rate=None` becomes an `Option ℚ` argument.
* The three network calls made by `check_product_for_deal` (short-link
  resolution, the product-detail lookup, affiliate-link generation) are
  modelled as explicit oracle arguments holding the value the call
  returned (`none` = the call failed / returned nothing).
-/

/-! ## brazil_taxes.py -/

/-- `calculate_brazilian_tax` (src/brazil_taxes.py:16-28): tiered import
tax in the foreign (USD) currency. -/
def calculate_brazilian_tax (usd_price : ℚ) : ℚ :=
  if usd_price ≤ 0 then 0
  else if usd_price ≤ 50 then usd_price * (44 / 100)
  else
    let tax := usd_price * (92 / 100) - 20
    if tax < 0 then 0 else tax

/-- `calculate_final_price_brl` (src/brazil_taxes.py:31-46): returns
`(final_price_brl, tax_brl, base_price_brl)`.  `usd_to_brl_rate = none`
models the Python default `None`, which falls back to the module-level
global rate. -/
def calculate_final_price_brl (usd_price : ℚ) (usd_to_brl_rate : Option ℚ)
    (globalRate : ℚ) : ℚ × ℚ × ℚ :=
  let rate := usd_to_brl_rate.getD globalRate
  let tax_usd := calculate_brazilian_tax usd_price
  let base_price_brl := usd_price * rate
  let tax_brl := tax_usd * rate
  (base_price_brl + tax_brl, tax_brl, base_price_brl)

/-! ## String helpers (Python semantics on ASCII strings) -/

/-- `str.replace(old, new)` scan: left-to-right, non-overlapping.  The
`Nat` argument counts characters of a just-matched occurrence still to be
skipped.  (An empty pattern is treated as never matching; the only
pattern the source uses is `".aliexpress.us"`.) -/
def pyReplaceAux (pat rep : List Char) : Nat → List Char → List Char
  | _, [] => []
  | n + 1, _ :: rest => pyReplaceAux pat rep n rest
  | 0, c :: rest =>
    if pat.isPrefixOf (c :: rest) ∧ ¬ pat.isEmpty then
      rep ++ pyReplaceAux pat rep (pat.length - 1) rest
    else
      c :: pyReplaceAux pat rep 0 rest

/-- `s.replace(pat, rep)`. -/
def pyReplace (s pat rep : String) : String :=
  ⟨pyReplaceAux pat.data rep.data 0 s.data⟩

/-- ASCII lower-casing of one character (for the case-insensitive short
link regex). -/
def lowerChar (c : Char) : Char :=
  if 'A' ≤ c ∧ c ≤ 'Z' then Char.ofNat (c.toNat + 32) else c

/-- ASCII upper-casing of one character (for `str.upper()`). -/
def upperChar (c : Char) : Char :=
  if 'a' ≤ c ∧ c ≤ 'z' then Char.ofNat (c.toNat - 32) else c

/-- `s.upper()` on the ASCII currency codes the source compares. -/
def pyUpper (s : String) : String := ⟨s.data.map upperChar⟩

/-- `s.isdigit()`: nonempty and all digits. -/
def pyIsDigit (s : String) : Bool :=
  !s.data.isEmpty && s.data.all Char.isDigit

/-- `s.startswith(p)`. -/
def strStartsWith (s p : String) : Bool := p.data.isPrefixOf s.data

/-! ## deals_checker.py: product-id extraction -/

/-- Attempt of `PRODUCT_ID_REGEX = /item/(\d+)\.html` at one position:
literal `/item/`, then a maximal nonempty digit run (the greedy `\d+`
group can only end where no digit follows, since the next literal is a
dot), then literal `.html`. -/
def matchItemAt (s : List Char) : Option String :=
  if "/item/".data.isPrefixOf s then
    let t := s.drop 6
    let ds := t.takeWhile Char.isDigit
    if ds ≠ [] ∧ ".html".data.isPrefixOf (t.dropWhile Char.isDigit) then some ⟨ds⟩
    else none
  else none

/-- Attempt of the fallback `/p/[^/]+/([0-9]+)\.html` at one position.
`[^/]+` cannot cross a slash, so it deterministically spans up to the
next `/`. -/
def matchPAt (s : List Char) : Option String :=
  if "/p/".data.isPrefixOf s then
    let t := s.drop 3
    let seg := t.takeWhile (fun c => c ≠ '/')
    let rest := t.dropWhile (fun c => c ≠ '/')
    if seg ≠ [] ∧ "/".data.isPrefixOf rest then
      let u := rest.drop 1
      let ds := u.takeWhile Char.isDigit
      if ds ≠ [] ∧ ".html".data.isPrefixOf (u.dropWhile Char.isDigit) then some ⟨ds⟩
      else none
    else none
  else none

/-- Attempt of the fallback `product/([0-9]+)` at one position. -/
def matchProductAt (s : List Char) : Option String :=
  if "product/".data.isPrefixOf s then
    let ds := (s.drop 8).takeWhile Char.isDigit
    if ds ≠ [] then some ⟨ds⟩ else none
  else none

/-- Attempt of the fallback `productId=(\d+)` at one position. -/
def matchProductIdAt (s : List Char) : Option String :=
  if "productId=".data.isPrefixOf s then
    let ds := (s.drop 10).takeWhile Char.isDigit
    if ds ≠ [] then some ⟨ds⟩ else none
  else none

/-- `re.search`: try the matcher at every position, leftmost match
wins. -/
def searchPat (m : List Char → Option String) : List Char → Option String
  | [] => m []
  | c :: rest =>
    match m (c :: rest) with
    | some g => some g
    | none => searchPat m rest

/-- `DealsChecker.extract_product_id` (src/deals_checker.py:134-157):
empty url yields `None`; the `.aliexpress.us` domain is normalized to
`.aliexpress.com`; then the primary pattern and the three fallback
patterns are tried in order, first match wins. -/
def extract_product_id (url : String) : Option String :=
  if url = "" then none
  else
    let u := (pyReplace url ".aliexpress.us" ".aliexpress.com").data
    match searchPat matchItemAt u with
    | some g => some g
    | none =>
      match searchPat matchPAt u with
      | some g => some g
      | none =>
        match searchPat matchProductAt u with
        | some g => some g
        | none => searchPat matchProductIdAt u

/-- Character class `[a-zA-Z0-9_-]` after lower-casing. -/
def shortClassChar (c : Char) : Bool :=
  ('a' ≤ c && c ≤ 'z') || ('0' ≤ c && c ≤ '9') || c = '_' || c = '-'

/-- `SHORT_LINK_REGEX.match(url)` (src/deals_checker.py:70-73): anchored
case-insensitive test for
`https?://(s\.click\.aliexpress\.com/e/|a\.aliexpress\.com/_)[a-zA-Z0-9_-]+/?`.
A prefix match succeeds exactly when the scheme, one of the two host
alternatives and at least one class character are present (the trailing
`/?` always matches). -/
def shortLinkMatch (url : String) : Bool :=
  let l := url.data.map lowerChar
  let afterScheme : Option (List Char) :=
    if "https://".data.isPrefixOf l then some (l.drop 8)
    else if "http://".data.isPrefixOf l then some (l.drop 7)
    else none
  match afterScheme with
  | none => false
  | some t =>
    let afterHost : Option (List Char) :=
      if "s.click.aliexpress.com/e/".data.isPrefixOf t then some (t.drop 25)
      else if "a.aliexpress.com/_".data.isPrefixOf t then some (t.drop 18)
      else none
    match afterHost with
    | none => false
    | some u =>
      match u with
      | [] => false
      | c :: _ => shortClassChar c

/-! ## Data model -/

/-- `google_sheets.Product` (src/google_sheets.py:11-22).  `section` is a
Lean keyword, so that field is named `sheet_section`; the defaulted
free-text fields (`description`, `sound_signature`, `availability`,
`review_link`) play no role in the evaluation logic and are omitted. -/
structure Product where
  name : String
  category : String
  sheet_section : String
  base_price : ℚ
  final_price : ℚ
  tax_rate : ℚ
  aliexpress_link : String
  deriving DecidableEq

/-- The dict returned by `_fetch_product_details_sync`
(src/deals_checker.py:214-221). -/
structure ProductDetails where
  product_id : String
  title : Option String
  image_url : Option String
  sale_price : ℚ
  original_price : ℚ
  currency : String
  deriving DecidableEq

/-- The configuration of a `DealsChecker` instance
(src/deals_checker.py:75-89) that the evaluation logic can see; the API
credential fields only decide whether the (oracle-modelled) network
calls can succeed and are omitted. -/
structure DealsChecker where
  min_discount_percent : ℚ
  currency : String
  country : String
  deriving DecidableEq

/-- The `Deal` dataclass (src/deals_checker.py:28-48).  The wall-clock
field `checked_at` is outside the embedding. -/
structure Deal where
  product : Product
  current_price : ℚ
  original_price : ℚ
  discount_percent : ℚ
  discount_amount : ℚ
  currency : String
  affiliate_link : String
  product_id : String
  image_url : Option String
  title : Option String
  deriving DecidableEq

/-- `Deal.is_significant_deal` (src/deals_checker.py:46-48):
`self.discount_percent >= 10.0`, a fixed constant. -/
def Deal.is_significant_deal (d : Deal) : Prop :=
  10 ≤ d.discount_percent

instance (d : Deal) : Decidable d.is_significant_deal :=
  inferInstanceAs (Decidable (10 ≤ d.discount_percent))

/-! ## deals_checker.py: the evaluation pipeline, stage by stage -/

/-- Start→Resolved (src/deals_checker.py:285-298): a short link is
expanded through the resolver oracle before extraction; any other link
is used directly. -/
def resolve_pid (link : String) (resolveResult : Option String) : Option String :=
  if shortLinkMatch link then
    match resolveResult with
    | some url => extract_product_id url
    | none => none
  else extract_product_id link

/-- Product-id validation (src/deals_checker.py:300-303):
`product_id.isdigit() and len(product_id) >= 10`. -/
def valid_pid (pid : String) : Bool :=
  pyIsDigit pid && decide (10 ≤ pid.length)

/-- Reference-price selection (src/deals_checker.py:318):
`product.final_price if product.final_price > 0 else product.base_price`. -/
def reference_price (final_price base_price : ℚ) : ℚ :=
  if 0 < final_price then final_price else base_price

/-- Listed→Priced (src/deals_checker.py:326-333): a listing whose
currency upper-cases to the literal `"BRL"` is divided by the exchange
rate to recover a foreign-currency price for the tax model; any other
listing currency is fed to the tax model as-is.  Returns the landed
total `current_final_brl`. -/
def current_landed (sale_price : ℚ) (listing_currency : String)
    (exchange_rate : ℚ) : ℚ :=
  let current_price_usd :=
    if pyUpper listing_currency = "BRL" then sale_price / exchange_rate
    else sale_price
  (calculate_final_price_brl current_price_usd (some exchange_rate) exchange_rate).1

/-- Priced→Thresholded (src/deals_checker.py:318-344): returns the
discount percent when the product qualifies, `none` on any of the three
rejections (no positive reference price, not cheaper, below the
configured minimum). -/
def thresholdStep (final_price base_price current min_discount_percent : ℚ) :
    Option ℚ :=
  let reference := reference_price final_price base_price
  if reference ≤ 0 then none
  else if reference ≤ current then none
  else
    let discount_percent := (reference - current) / reference * 100
    if discount_percent < min_discount_percent then none
    else some discount_percent

/-- Thresholded→Linked (src/deals_checker.py:348-357): the generated
affiliate link, falling back to the product's original link when the
generated one is missing or does not start with `http`; the deal is
dropped when the resulting link is empty, `"-"`, or does not start with
`http`. -/
def link_step (affResult : Option String) (original_link : String) :
    Option String :=
  let affiliate_link :=
    match affResult with
    | none => original_link
    | some s => if s = "" ∨ ¬ strStartsWith s "http" then original_link else s
  if affiliate_link = "" ∨ affiliate_link = "-" ∨ ¬ strStartsWith affiliate_link "http" then
    none
  else some affiliate_link

/-- `details.get('title') or product.name` (src/deals_checker.py:369). -/
def deal_title (t : Option String) (product_name : String) : String :=
  match t with
  | none => product_name
  | some s => if s = "" then product_name else s

/-- `DealsChecker.check_product_for_deal` (src/deals_checker.py:279-381)
as a pure function of the product, the configuration, the exchange-rate
snapshot returned by `get_exchange_rate()`, and oracles for the three
network calls. -/
def check_product_for_deal (cfg : DealsChecker) (product : Product)
    (resolveResult : Option String) (details : Option ProductDetails)
    (exchange_rate : ℚ) (affResult : Option String) : Option Deal :=
  match resolve_pid product.aliexpress_link resolveResult with
  | none => none
  | some product_id =>
    if valid_pid product_id then
      match details with
      | none => none
      | some d =>
        if d.sale_price ≤ 0 then none
        else
          match thresholdStep product.final_price product.base_price
              (current_landed d.sale_price d.currency exchange_rate)
              cfg.min_discount_percent with
          | none => none
          | some discount_percent =>
            match link_step affResult product.aliexpress_link with
            | none => none
            | some link =>
              some {
                product := product
                current_price := d.sale_price
                original_price := reference_price product.final_price product.base_price
                discount_percent := discount_percent
                discount_amount := reference_price product.final_price product.base_price
                  - current_landed d.sale_price d.currency exchange_rate
                currency := "BRL"
                affiliate_link := link
                product_id := product_id
                image_url := d.image_url
                title := some (deal_title d.title product.name) }
    else none

/-- `DealsChecker.filter_best_deals` (src/deals_checker.py:427-439).
`min_discount or self.min_discount_percent` is Python truthiness: both
`None` and `0` fall back to the configured minimum.  The stable sort
`filtered.sort(key=..., reverse=True)` is modelled by insertion sort
with the non-strict descending comparison, which is stable in exactly
the same way (ties keep their original relative order). -/
def filter_best_deals (cfg : DealsChecker) (deals : List Deal)
    (max_deals : Nat) (min_discount : Option ℚ) : List Deal :=
  let m := match min_discount with
    | none => cfg.min_discount_percent
    | some q => if q = 0 then cfg.min_discount_percent else q
  let filtered := deals.filter (fun d => decide (m ≤ d.discount_percent))
  (List.insertionSort (fun a b => b.discount_percent ≤ a.discount_percent) filtered).take
    max_deals

/-- Modelled from the spec: "a well-formed absolute URL" (§4.3) — the
spec does not define the phrase further, and no code under src/
implements such a check; modelled as an RFC-3986-style absolute URL: a
nonempty ASCII-letter scheme, the literal `"://"`, and a nonempty
remainder. -/
def IsAbsoluteUrl (s : String) : Bool :=
  let scheme := s.data.takeWhile Char.isAlpha
  let rest := s.data.dropWhile Char.isAlpha
  !scheme.isEmpty && "://".data.isPrefixOf rest && decide (3 < rest.length)

/-! ## Concrete scenario inputs used by the claim instances -/

/-- A product record with the given reference prices and link. -/
def prodOf (finalp basep : ℚ) (link : String) : Product :=
  { name := "Test Earphone", category := "EARPHONES", sheet_section := "in-ears",
    base_price := basep, final_price := finalp, tax_rate := 45,
    aliexpress_link := link }

/-- A fetched listing with the given sale price and currency. -/
def detOf (sale : ℚ) (curr : String) : ProductDetails :=
  { product_id := "1005001234567890", title := some "Listing",
    image_url := none, sale_price := sale, original_price := 0,
    currency := curr }

/-- A deal whose only relevant field is its discount percent. -/
def dealOf (disc : ℚ) : Deal :=
  { product := prodOf 0 0 "", current_price := 0, original_price := 0,
    discount_percent := disc, discount_amount := 0, currency := "BRL",
    affiliate_link := "", product_id := "", image_url := none, title := none }

def cfg10 : DealsChecker :=
  { min_discount_percent := 10, currency := "BRL", country := "BR" }

def cfg5 : DealsChecker :=
  { min_discount_percent := 5, currency := "BRL", country := "BR" }

def cfgUSD : DealsChecker :=
  { min_discount_percent := 10, currency := "USD", country := "US" }

def itemLink : String := "https://www.aliexpress.com/item/1005001234567890.html"

def affOk : Option String := some "https://s.click.aliexpress.com/e/_abc"

/-- A link that is not a well-formed absolute URL (no `://` after the
scheme letters) yet starts with `"http"` and contains an extractable
item id. -/
def nonUrlLink : String := "httpXX/item/12345678901.html"

/-! ## Helper lemmas -/

/-- Low-tier tax value. -/
theorem calculate_brazilian_tax_low {p : ℚ} (h1 : 0 < p) (h2 : p ≤ 50) :
    calculate_brazilian_tax p = p * (44 / 100) := by
  unfold calculate_brazilian_tax
  rw [if_neg (by linarith), if_pos h2]

/-- High-tier tax value; for `p > 50` the floor at `0` can never fire. -/
theorem calculate_brazilian_tax_high {p : ℚ} (h : 50 < p) :
    calculate_brazilian_tax p = p * (92 / 100) - 20 := by
  unfold calculate_brazilian_tax
  rw [if_neg (by linarith), if_neg (by linarith)]
  exact if_neg (by linarith)

/-- Evaluation of the whole pipeline when every stage succeeds. -/
theorem check_eval_some (cfg : DealsChecker) (product : Product)
    (res : Option String) (d : ProductDetails) (rate : ℚ) (aff : Option String)
    (pid link : String) (dp : ℚ)
    (h1 : resolve_pid product.aliexpress_link res = some pid)
    (h2 : valid_pid pid = true)
    (h3 : ¬ d.sale_price ≤ 0)
    (h4 : thresholdStep product.final_price product.base_price
        (current_landed d.sale_price d.currency rate) cfg.min_discount_percent
        = some dp)
    (h5 : link_step aff product.aliexpress_link = some link) :
    check_product_for_deal cfg product res (some d) rate aff = some
      { product := product, current_price := d.sale_price,
        original_price := reference_price product.final_price product.base_price,
        discount_percent := dp,
        discount_amount := reference_price product.final_price product.base_price
          - current_landed d.sale_price d.currency rate,
        currency := "BRL", affiliate_link := link, product_id := pid,
        image_url := d.image_url,
        title := some (deal_title d.title product.name) } := by
  unfold check_product_for_deal
  rw [h1]
  simp only [h2, if_true, h4, h5]
  rw [if_neg h3]

/-- Evaluation of the whole pipeline when the threshold stage rejects. -/
theorem check_eval_none_threshold (cfg : DealsChecker) (product : Product)
    (res : Option String) (d : ProductDetails) (rate : ℚ) (aff : Option String)
    (pid : String)
    (h1 : resolve_pid product.aliexpress_link res = some pid)
    (h2 : valid_pid pid = true)
    (h3 : ¬ d.sale_price ≤ 0)
    (h4 : thresholdStep product.final_price product.base_price
        (current_landed d.sale_price d.currency rate) cfg.min_discount_percent
        = none) :
    check_product_for_deal cfg product res (some d) rate aff = none := by
  unfold check_product_for_deal
  rw [h1]
  simp only [h2, if_true, h4]
  rw [if_neg h3]

/-- Landed price of a listing in a currency other than BRL. -/
theorem current_landed_other {c : String} (sale rate : ℚ)
    (h : ¬ pyUpper c = "BRL") :
    current_landed sale c rate
      = sale * rate + calculate_brazilian_tax sale * rate := by
  unfold current_landed calculate_final_price_brl
  rw [if_neg h]
  rfl

/-- Stability of `orderedInsert` under the descending comparison: every
tie-ordering property `Q x y := key x = key y → f x < f y` is preserved
when the inserted element is `Q`-before everything in the list. -/
theorem pairwise_tie_orderedInsert (f : Deal → Nat) (a : Deal) (l : List Deal)
    (h1 : ∀ b ∈ l, a.discount_percent = b.discount_percent → f a < f b)
    (h2 : l.Pairwise
      (fun x y => x.discount_percent = y.discount_percent → f x < f y)) :
    (List.orderedInsert (fun x y => y.discount_percent ≤ x.discount_percent)
        a l).Pairwise
      (fun x y => x.discount_percent = y.discount_percent → f x < f y) := by
  induction l with
  | nil => simp
  | cons b l ih =>
    rw [List.orderedInsert]
    rcases List.pairwise_cons.mp h2 with ⟨hb, hl⟩
    by_cases hab : b.discount_percent ≤ a.discount_percent
    · rw [if_pos hab]
      exact List.Pairwise.cons (fun c hc => h1 c hc) h2
    · rw [if_neg hab]
      refine List.Pairwise.cons (fun c hc => ?_) ?_
      · rcases (List.mem_orderedInsert _).mp hc with rfl | hc
        · intro he; exact absurd (le_of_eq he) hab
        · exact hb c hc
      · exact ih (fun c hc he => h1 c (List.mem_cons_of_mem b hc) he) hl

/-- Stability of insertion sort under the descending comparison. -/
theorem pairwise_tie_insertionSort (f : Deal → Nat) (l : List Deal)
    (h : l.Pairwise
      (fun x y => x.discount_percent = y.discount_percent → f x < f y)) :
    (List.insertionSort (fun x y => y.discount_percent ≤ x.discount_percent)
        l).Pairwise
      (fun x y => x.discount_percent = y.discount_percent → f x < f y) := by
  induction l with
  | nil => simp
  | cons a l ih =>
    rw [List.insertionSort]
    rcases List.pairwise_cons.mp h with ⟨ha, hl⟩
    exact pairwise_tie_orderedInsert f a _
      (fun b hb => ha b ((List.mem_insertionSort _).mp hb)) (ih hl)

/-! ## C1: the tax tiers -/

/-- C1: for every foreign price `p`, the tax is `0` when `p ≤ 0`, is
`p * 0.44` when `0 < p ≤ 50` (the boundary `p = 50` included), and is
`p * 0.92 - 20` floored at `0` when `p > 50`. -/
theorem calculate_brazilian_tax_tiers (p : ℚ) :
    (p ≤ 0 → calculate_brazilian_tax p = 0) ∧
    (0 < p → p ≤ 50 → calculate_brazilian_tax p = p * (44 / 100)) ∧
    (50 < p → calculate_brazilian_tax p = max 0 (p * (92 / 100) - 20)) := by
  refine ⟨fun h => ?_, fun h1 h2 => calculate_brazilian_tax_low h1 h2, fun h => ?_⟩
  · unfold calculate_brazilian_tax
    rw [if_pos h]
  · rw [calculate_brazilian_tax_high h, max_eq_right (by linarith)]

/-- Witness for C1 at the concrete prices 30 (low tier) and 75 (high
tier). -/
theorem calculate_brazilian_tax_tiers_app :
    calculate_brazilian_tax 30 = 30 * (44 / 100) ∧
    calculate_brazilian_tax 75 = max 0 (75 * (92 / 100) - 20) :=
  ⟨(calculate_brazilian_tax_tiers 30).2.1 (by norm_num) (by norm_num),
   (calculate_brazilian_tax_tiers 75).2.2 (by norm_num)⟩

/-! ## C4: the conversion triple -/

/-- C4: with an explicitly supplied rate, `calculate_final_price_brl`
returns `(base + tax, tax, base)` with `base = price * rate` and
`tax = calculate_brazilian_tax price * rate`; at `price = 100`,
`rate = 5` the tax in USD is `72` and the triple is `(860, 360, 500)`. -/
theorem calculate_final_price_brl_spec :
    (∀ p r g : ℚ, calculate_final_price_brl p (some r) g =
      (p * r + calculate_brazilian_tax p * r, calculate_brazilian_tax p * r, p * r)) ∧
    calculate_brazilian_tax 100 = 72 ∧
    calculate_final_price_brl 100 (some 5) 0 = (860, 360, 500) := by
  refine ⟨fun p r g => rfl, ?_, ?_⟩
  · rw [calculate_brazilian_tax_high (by norm_num)]; norm_num
  · unfold calculate_final_price_brl
    rw [calculate_brazilian_tax_high (by norm_num)]
    norm_num

/-! ## C5: the alleged tax-free crossover at 21.74 -/

/-- Counterexample to C5: `calculate_brazilian_tax 21.74` is neither
`max 0 (0.92 * 21.74 - 20)` nor `0` — the price `21.74` falls in the low
tier. -/
theorem tax_at_21_74_cex :
    calculate_brazilian_tax (2174 / 100) ≠ max 0 ((2174 / 100) * (92 / 100) - 20) ∧
    calculate_brazilian_tax (2174 / 100) ≠ 0 := by
  rw [calculate_brazilian_tax_low (by norm_num) (by norm_num)]
  constructor
  · rw [max_eq_right (by norm_num)]
    norm_num
  · norm_num

/-- C5 amended: `21.74` lies in the low tier, so its tax is
`21.74 * 0.44 = 9.5656`, which is positive — the high-tier formula
`0.92 * p - 20` (whose zero lies near `p ≈ 21.74`) does not apply to it,
and the function is zero only for non-positive prices. -/
theorem tax_at_21_74_low_tier :
    calculate_brazilian_tax (2174 / 100) = 95656 / 10000 ∧
    0 < calculate_brazilian_tax (2174 / 100) := by
  rw [calculate_brazilian_tax_low (by norm_num) (by norm_num)]
  norm_num

/-! ## C9: determinism / statelessness of the conversion -/

/-- C9: with an explicitly supplied rate the conversion does not read
the module-level global rate (noninterference in the global state), so
two invocations with identical explicit arguments agree; by contrast,
when the rate argument is omitted (`none`, Python `None`) the global
state is read. -/
theorem calculate_final_price_brl_noninterference :
    (∀ g g' p r : ℚ,
      calculate_final_price_brl p (some r) g = calculate_final_price_brl p (some r) g') ∧
    calculate_final_price_brl 100 none 5 ≠ calculate_final_price_brl 100 none 6 := by
  refine ⟨fun g g' p r => rfl, ?_⟩
  unfold calculate_final_price_brl
  rw [calculate_brazilian_tax_high (by norm_num)]
  norm_num

/-! ## C2: the threshold stage -/

/-- C2: the threshold stage yields a discount exactly when the reference
price (final landed price if positive, else base landed price) is
positive, the current landed price is strictly below it, and the
resulting discount percent reaches the configured minimum; on the
concrete product with `final_price = 145`, a listing landing at `160` is
rejected and a listing landing at `120` qualifies with discount
`500/29 ≈ 17.24 %`. -/
theorem thresholdStep_characterization :
    (∀ f b cur m d : ℚ, thresholdStep f b cur m = some d ↔
      (0 < reference_price f b ∧ cur < reference_price f b ∧
       m ≤ (reference_price f b - cur) / reference_price f b * 100 ∧
       d = (reference_price f b - cur) / reference_price f b * 100)) ∧
    check_product_for_deal cfg10 (prodOf 145 100 itemLink) none
      (some (detOf (200 / 9) "USD")) 5 affOk = none ∧
    (check_product_for_deal cfg10 (prodOf 145 100 itemLink) none
        (some (detOf (50 / 3) "USD")) 5 affOk).map Deal.discount_percent
      = some (500 / 29) ∧
    (1724 : ℚ) / 100 < 500 / 29 ∧ (500 : ℚ) / 29 < 1725 / 100 := by
  refine ⟨fun f b cur m d => ?_, ?_, ?_, by norm_num, by norm_num⟩
  · simp only [thresholdStep]
    split_ifs with h1 h2 h3
    · constructor
      · intro h; exact absurd h (by simp)
      · rintro ⟨hpos, -, -, -⟩; exact absurd h1 (not_le.mpr hpos)
    · constructor
      · intro h; exact absurd h (by simp)
      · rintro ⟨-, hlt, -, -⟩; exact absurd h2 (not_le.mpr hlt)
    · constructor
      · intro h; exact absurd h (by simp)
      · rintro ⟨-, -, hm2, -⟩; exact absurd h3 (not_lt.mpr hm2)
    · constructor
      · intro h
        injection h with h
        exact ⟨not_le.mp h1, not_le.mp h2, not_lt.mp h3, h.symm⟩
      · rintro ⟨-, -, -, rfl⟩; rfl
  · have h4 : thresholdStep 145 100 (current_landed (200 / 9) "USD" 5) 10 = none := by
      rw [current_landed_other (200 / 9) 5 (by decide),
        calculate_brazilian_tax_low (by norm_num) (by norm_num)]
      norm_num [thresholdStep, reference_price]
    exact check_eval_none_threshold cfg10 (prodOf 145 100 itemLink) none
      (detOf (200 / 9) "USD") 5 affOk "1005001234567890"
      (by decide) (by decide) (by norm_num [detOf]) h4
  · have h4 : thresholdStep 145 100 (current_landed (50 / 3) "USD" 5) 10
        = some (500 / 29) := by
      rw [current_landed_other (50 / 3) 5 (by decide),
        calculate_brazilian_tax_low (by norm_num) (by norm_num)]
      norm_num [thresholdStep, reference_price]
    have h := check_eval_some cfg10 (prodOf 145 100 itemLink) none
      (detOf (50 / 3) "USD") 5 affOk "1005001234567890"
      "https://s.click.aliexpress.com/e/_abc" (500 / 29)
      (by decide) (by decide) (by norm_num [detOf]) h4 (by decide)
    rw [h]
    rfl

/-! ## C3: filter_best_deals -/

/-- Counterexample to C3 as stated: with the configured minimum at `10`,
an explicit `min_discount = 0` is treated by `min_discount or
self.min_discount_percent` as unset, so a deal whose discount (`5`)
meets the requested minimum `0` is nevertheless dropped. -/
theorem filter_best_deals_zero_min_cex :
    filter_best_deals cfg10 [dealOf 5] 10 (some 0) = [] ∧
    (0 : ℚ) ≤ (dealOf 5).discount_percent := by
  constructor
  · simp only [filter_best_deals, cfg10]
    norm_num [dealOf, List.filter_cons]
  · norm_num [dealOf]

/-- C3 amended (for every nonzero requested minimum; a zero or omitted
minimum falls back to the configured one): the result contains only
input deals whose discount reaches the minimum, has length
`min max_count #filtered`, is sorted by descending discount, keeps the
original relative order of ties, and omits only deals that do not beat
any kept deal; and the spec's example `[12, 45, 8, 30]`, minimum `10`,
`max_count 2` returns `[45, 30]`. -/
theorem filter_best_deals_spec :
    (∀ (cfg : DealsChecker) (deals : List Deal) (mx : Nat) (m : ℚ), m ≠ 0 →
      ∀ f : Deal → Nat, deals.Pairwise (fun a b => f a < f b) →
      (∀ d ∈ filter_best_deals cfg deals mx (some m),
        d ∈ deals ∧ m ≤ d.discount_percent) ∧
      (filter_best_deals cfg deals mx (some m)).length
        = min mx (deals.filter (fun d => decide (m ≤ d.discount_percent))).length ∧
      (filter_best_deals cfg deals mx (some m)).Pairwise
        (fun a b => b.discount_percent ≤ a.discount_percent) ∧
      (filter_best_deals cfg deals mx (some m)).Pairwise
        (fun a b => a.discount_percent = b.discount_percent → f a < f b) ∧
      (∀ a ∈ filter_best_deals cfg deals mx (some m), ∀ b ∈ deals,
        m ≤ b.discount_percent → b ∉ filter_best_deals cfg deals mx (some m) →
        b.discount_percent ≤ a.discount_percent)) ∧
    filter_best_deals cfg10 [dealOf 12, dealOf 45, dealOf 8, dealOf 30] 2 (some 10)
      = [dealOf 45, dealOf 30] := by
  constructor
  · intro cfg deals mx m hm f hf
    have hunf : filter_best_deals cfg deals mx (some m)
        = (List.insertionSort (fun a b : Deal => b.discount_percent ≤ a.discount_percent)
            (deals.filter (fun d => decide (m ≤ d.discount_percent)))).take mx := by
      have hmm : (if m = 0 then cfg.min_discount_percent else m) = m := if_neg hm
      simp only [filter_best_deals, hmm]
    haveI : IsTotal Deal (fun a b : Deal => b.discount_percent ≤ a.discount_percent) :=
      ⟨fun a b => le_total b.discount_percent a.discount_percent⟩
    haveI : IsTrans Deal (fun a b : Deal => b.discount_percent ≤ a.discount_percent) :=
      ⟨fun _ _ _ h1 h2 => le_trans h2 h1⟩
    have hsort : (List.insertionSort
        (fun a b : Deal => b.discount_percent ≤ a.discount_percent)
        (deals.filter (fun d => decide (m ≤ d.discount_percent)))).Sorted
        (fun a b : Deal => b.discount_percent ≤ a.discount_percent) :=
      List.sorted_insertionSort
        (fun a b : Deal => b.discount_percent ≤ a.discount_percent) _
    refine ⟨?_, ?_, ?_, ?_, ?_⟩
    · intro d hd
      rw [hunf] at hd
      have hdF := (List.mem_insertionSort _).mp (List.mem_of_mem_take hd)
      rcases List.mem_filter.mp hdF with ⟨hd1, hd2⟩
      exact ⟨hd1, of_decide_eq_true hd2⟩
    · rw [hunf, List.length_take, List.length_insertionSort]
    · rw [hunf]
      exact List.Pairwise.sublist (List.take_sublist _ _) hsort
    · rw [hunf]
      refine List.Pairwise.sublist (List.take_sublist _ _) ?_
      refine pairwise_tie_insertionSort f _ ?_
      exact (List.Pairwise.sublist (List.filter_sublist _) hf).imp
        (fun {a b : Deal} (h : f a < f b)
          (_ : a.discount_percent = b.discount_percent) => h)
    · intro a ha b hb hbm hbnot
      rw [hunf] at ha hbnot
      have hbF : b ∈ deals.filter (fun d => decide (m ≤ d.discount_percent)) :=
        List.mem_filter.mpr ⟨hb, decide_eq_true hbm⟩
      have hbS := (List.mem_insertionSort
        (fun a b : Deal => b.discount_percent ≤ a.discount_percent)).mpr hbF
      have hbdrop : b ∈ (List.insertionSort
          (fun a b : Deal => b.discount_percent ≤ a.discount_percent)
          (deals.filter (fun d => decide (m ≤ d.discount_percent)))).drop mx := by
        have hsplit : b ∈ (List.insertionSort
            (fun a b : Deal => b.discount_percent ≤ a.discount_percent)
            (deals.filter (fun d => decide (m ≤ d.discount_percent)))).take mx
            ++ (List.insertionSort
            (fun a b : Deal => b.discount_percent ≤ a.discount_percent)
            (deals.filter (fun d => decide (m ≤ d.discount_percent)))).drop mx := by
          rw [List.take_append_drop]
          exact hbS
        rcases List.mem_append.mp hsplit with h | h
        · exact absurd h hbnot
        · exact h
      exact hsort.rel_of_mem_take_of_mem_drop ha hbdrop
  · simp only [filter_best_deals, cfg10]
    norm_num [dealOf, List.filter_cons, List.insertionSort, List.orderedInsert]

/-- Witness for the amended C3, instantiated at the deals `[12, 45]`,
`max_count 2`, minimum `10`, with the position function reading off the
numerator. -/
theorem filter_best_deals_spec_app :
    (filter_best_deals cfg10 [dealOf 12, dealOf 45] 2 (some 10)).length
      = min 2 (([dealOf 12, dealOf 45]).filter
          (fun d => decide ((10 : ℚ) ≤ d.discount_percent))).length :=
  (filter_best_deals_spec.1 cfg10 [dealOf 12, dealOf 45] 2 10 (by norm_num)
    (fun d => d.discount_percent.num.toNat) (by norm_num [dealOf])).2.1

/-! ## C6: identifier validation gates every Deal -/

/-- C6: a produced Deal always carries an all-digit identifier of length
at least 10; the example link yields identifier `"1005007431129955"`;
and a product whose link yields only the too-short `"123"` is rejected
for every configuration and every oracle outcome. -/
theorem check_product_id_validated :
    (∀ cfg product res det rate aff deal,
      check_product_for_deal cfg product res det rate aff = some deal →
      (∀ c ∈ deal.product_id.data, c.isDigit = true) ∧ 10 ≤ deal.product_id.length) ∧
    extract_product_id "https://x.aliexpress.com/item/1005007431129955.html"
      = some "1005007431129955" ∧
    (∀ cfg product res det rate aff,
      product.aliexpress_link = "https://x.aliexpress.com/item/123.html" →
      check_product_for_deal cfg product res det rate aff = none) := by
  refine ⟨?_, by decide, ?_⟩
  · intro cfg product res det rate aff deal h
    unfold check_product_for_deal at h
    split at h
    · exact absurd h (by simp)
    · rename_i pid hres
      split at h
      · rename_i hv
        split at h
        · exact absurd h (by simp)
        · rename_i d
          split at h
          · exact absurd h (by simp)
          · split at h
            · exact absurd h (by simp)
            · rename_i dp hth
              split at h
              · exact absurd h (by simp)
              · rename_i link hls
                injection h with h
                subst h
                have hv2 := hv
                unfold valid_pid pyIsDigit at hv2
                rw [Bool.and_eq_true, Bool.and_eq_true] at hv2
                obtain ⟨⟨hne, hall⟩, hlen⟩ := hv2
                exact ⟨fun c hc => List.all_eq_true.mp hall c hc,
                  of_decide_eq_true hlen⟩
      · exact absurd h (by simp)
  · intro cfg product res det rate aff hlink
    unfold check_product_for_deal resolve_pid
    rw [hlink]
    have h1 : shortLinkMatch "https://x.aliexpress.com/item/123.html" = false := by
      decide
    have h2 : extract_product_id "https://x.aliexpress.com/item/123.html"
        = some "123" := by decide
    have h3 : valid_pid "123" = false := by decide
    simp [h1, h2, h3]

/-- Witness for C6: the digit and length facts instantiated through a
concrete qualifying run, and the too-short link rejected on a concrete
product. -/
theorem check_product_id_validated_app :
    ((∀ c ∈ ("1005001234567890" : String).data, c.isDigit = true) ∧
      10 ≤ ("1005001234567890" : String).length) ∧
    check_product_for_deal cfg10
      (prodOf 145 100 "https://x.aliexpress.com/item/123.html")
      none none 5 none = none := by
  have h4 : thresholdStep 2000 100 (current_landed 100 "USD" 5) 10 = some 57 := by
    rw [current_landed_other 100 5 (by decide),
      calculate_brazilian_tax_high (by norm_num)]
    norm_num [thresholdStep, reference_price]
  have h := check_eval_some cfg10 (prodOf 2000 100 itemLink) none
    (detOf 100 "USD") 5 affOk "1005001234567890"
    "https://s.click.aliexpress.com/e/_abc" 57
    (by decide) (by decide) (by norm_num [detOf]) h4 (by decide)
  exact ⟨check_product_id_validated.1 cfg10 (prodOf 2000 100 itemLink) none
      (some (detOf 100 "USD")) 5 affOk _ h,
    check_product_id_validated.2.2 cfg10
      (prodOf 145 100 "https://x.aliexpress.com/item/123.html")
      none none 5 none rfl⟩

/-! ## C7: the BRL-listing asymmetry -/

/-- Counterexample to C7 as stated: with the checker configured for
domestic currency `"USD"` and a listing also in `"USD"`, the code does
not divide the listing price by the rate — the comparison is against the
literal `"BRL"`, not the configured currency.  The produced discount is
`14 %`; dividing (as the claim prescribes for a listing in the
configured domestic currency) would have given `85.6 %`. -/
theorem current_landed_ignores_config_currency :
    (check_product_for_deal cfgUSD (prodOf 1000 100 itemLink) none
        (some (detOf 100 "USD")) 5 affOk).map Deal.discount_percent = some 14 ∧
    (14 : ℚ) ≠ (1000 - (calculate_final_price_brl (100 / 5) (some 5) 5).1)
      / 1000 * 100 := by
  constructor
  · have h4 : thresholdStep 1000 100 (current_landed 100 "USD" 5) 10 = some 14 := by
      rw [current_landed_other 100 5 (by decide),
        calculate_brazilian_tax_high (by norm_num)]
      norm_num [thresholdStep, reference_price]
    have h := check_eval_some cfgUSD (prodOf 1000 100 itemLink) none
      (detOf 100 "USD") 5 affOk "1005001234567890"
      "https://s.click.aliexpress.com/e/_abc" 14
      (by decide) (by decide) (by norm_num [detOf]) h4 (by decide)
    rw [h]
    rfl
  · have hv : (calculate_final_price_brl (100 / 5) (some 5) 5).1 = 144 := by
      rw [show (100 : ℚ) / 5 = 20 by norm_num]
      simp only [calculate_final_price_brl]
      rw [calculate_brazilian_tax_low (by norm_num) (by norm_num)]
      norm_num
    rw [hv]
    norm_num

/-- C7 amended: the Listed→Priced step divides the sale price by the
rate exactly when the listing currency upper-cases to the hardcoded
literal `"BRL"` — the configured currency is never read by the
evaluation — and uses the sale price as-is for every other listing
currency; for a produced Deal the landed price is recoverable as
`original_price - discount_amount`. -/
theorem current_landed_brl_literal :
    (∀ (sale rate : ℚ) (c : String), pyUpper c = "BRL" →
      current_landed sale c rate
        = (calculate_final_price_brl (sale / rate) (some rate) rate).1) ∧
    (∀ (sale rate : ℚ) (c : String), ¬ pyUpper c = "BRL" →
      current_landed sale c rate
        = (calculate_final_price_brl sale (some rate) rate).1) ∧
    (∀ cfg cfg' product res det rate aff,
      cfg.min_discount_percent = cfg'.min_discount_percent →
      check_product_for_deal cfg product res det rate aff
        = check_product_for_deal cfg' product res det rate aff) ∧
    (∀ cfg product res d rate aff deal,
      check_product_for_deal cfg product res (some d) rate aff = some deal →
      deal.original_price - deal.discount_amount
        = current_landed d.sale_price d.currency rate) := by
  refine ⟨fun sale rate c h => ?_, fun sale rate c h => ?_,
    fun cfg cfg' product res det rate aff h => ?_, ?_⟩
  · simp only [current_landed]
    rw [if_pos h]
  · simp only [current_landed]
    rw [if_neg h]
  · unfold check_product_for_deal
    rw [h]
  · intro cfg product res d rate aff deal h
    unfold check_product_for_deal at h
    split at h
    · exact absurd h (by simp)
    · split at h
      · split at h
        · exact absurd h (by simp)
        · rename_i d2 heq2
          injection heq2 with heq2
          subst heq2
          split at h
          · exact absurd h (by simp)
          · split at h
            · exact absurd h (by simp)
            · split at h
              · exact absurd h (by simp)
              · injection h with h
                subst h
                exact sub_sub_cancel _ _
      · exact absurd h (by simp)

/-- Witness for the amended C7: a lower-case `"brl"` listing is divided
by the rate, a `"USD"` listing is not. -/
theorem current_landed_brl_literal_app :
    current_landed 100 "brl" 5
        = (calculate_final_price_brl (100 / 5) (some 5) 5).1 ∧
    current_landed 100 "USD" 5
        = (calculate_final_price_brl 100 (some 5) 5).1 :=
  ⟨current_landed_brl_literal.1 100 5 "brl" (by decide),
   current_landed_brl_literal.2.1 100 5 "USD" (by decide)⟩

/-! ## C8: the affiliate-link fallback -/

/-- Counterexample to C8 as stated: with affiliate-link generation
failing, a product whose original link `"httpXX/item/12345678901.html"`
is not a well-formed absolute URL still produces a Deal carrying that
link — the code only tests the `"http"` prefix (plus `""` and `"-"`). -/
theorem link_fallback_accepts_non_url :
    (check_product_for_deal cfg10 (prodOf 1000 100 nonUrlLink) none
        (some (detOf 100 "USD")) 5 none).map Deal.affiliate_link
      = some nonUrlLink ∧
    IsAbsoluteUrl nonUrlLink = false := by
  constructor
  · have h4 : thresholdStep 1000 100 (current_landed 100 "USD" 5) 10 = some 14 := by
      rw [current_landed_other 100 5 (by decide),
        calculate_brazilian_tax_high (by norm_num)]
      norm_num [thresholdStep, reference_price]
    have h := check_eval_some cfg10 (prodOf 1000 100 nonUrlLink) none
      (detOf 100 "USD") 5 none "12345678901" nonUrlLink 14
      (by decide) (by decide) (by norm_num [detOf]) h4 (by decide)
    rw [h]
    rfl
  · decide

/-- C8 amended: when affiliate-link generation fails (no link, or a
link that is empty or does not start with `"http"`), the Evaluator
falls back to the product's original link if and only if that link is
nonempty, is not `"-"`, and starts with `"http"`; and whenever the link
stage yields nothing the evaluation produces no Deal. -/
theorem link_step_fallback :
    (∀ (aff : Option String) (orig : String),
      (∀ s, aff = some s → s = "" ∨ ¬ strStartsWith s "http") →
      link_step aff orig =
        if orig ≠ "" ∧ orig ≠ "-" ∧ strStartsWith orig "http" then some orig
        else none) ∧
    (∀ cfg product res det rate aff,
      link_step aff product.aliexpress_link = none →
      check_product_for_deal cfg product res det rate aff = none) := by
  constructor
  · intro aff orig h
    have key : ∀ o : String,
        (if o = "" ∨ o = "-" ∨ ¬ strStartsWith o "http" then (none : Option String)
          else some o)
        = if o ≠ "" ∧ o ≠ "-" ∧ strStartsWith o "http" then some o else none := by
      intro o
      split_ifs with h1 h2 <;> first | rfl | tauto
    cases aff with
    | none => simpa only [link_step] using key orig
    | some s =>
      have hs := h s rfl
      simp only [link_step]
      rw [if_pos hs]
      exact key orig
  · intro cfg product res det rate aff h
    unfold check_product_for_deal
    split
    · rfl
    · split
      · split
        · rfl
        · split
          · rfl
          · split
            · rfl
            · rw [h]
      · rfl

/-- Witness for the amended C8: a failing generation together with the
unusable original link `"-"` yields no link and no Deal. -/
theorem link_step_fallback_app :
    link_step none "-" = none ∧
    check_product_for_deal cfg10 (prodOf 1000 100 "-") none none 5 none = none := by
  have h1 : link_step none "-" =
      if ("-" : String) ≠ "" ∧ ("-" : String) ≠ "-" ∧ strStartsWith "-" "http"
      then some "-" else none :=
    link_step_fallback.1 none "-" (fun s hs => Option.noConfusion hs)
  have h2 : link_step none "-" = none := by
    rw [h1, if_neg]
    rintro ⟨-, hne, -⟩
    exact hne rfl
  exact ⟨h2, link_step_fallback.2 cfg10 (prodOf 1000 100 "-") none none 5 none h2⟩

/-! ## C10: the fixed significance threshold -/

/-- C10: `is_significant_deal` holds exactly when the discount reaches
the fixed constant `10`, independent of the configured minimum: a
checker configured with minimum `5` produces a qualified Deal with
discount `150/23 ≈ 6.5 %` whose `is_significant_deal` is `false`. -/
theorem is_significant_deal_fixed_threshold :
    (∀ d : Deal, d.is_significant_deal ↔ 10 ≤ d.discount_percent) ∧
    (check_product_for_deal cfg5 (prodOf 920 100 itemLink) none
        (some (detOf 100 "USD")) 5 affOk).map
        (fun d => (decide d.is_significant_deal, d.discount_percent))
      = some (false, 150 / 23) := by
  constructor
  · intro d
    exact Iff.rfl
  · have h4 : thresholdStep 920 100 (current_landed 100 "USD" 5) 5
        = some (150 / 23) := by
      rw [current_landed_other 100 5 (by decide),
        calculate_brazilian_tax_high (by norm_num)]
      norm_num [thresholdStep, reference_price]
    have h := check_eval_some cfg5 (prodOf 920 100 itemLink) none
      (detOf 100 "USD") 5 affOk "1005001234567890"
      "https://s.click.aliexpress.com/e/_abc" (150 / 23)
      (by decide) (by decide) (by norm_num [detOf]) h4 (by decide)
    rw [h, Option.map_some']
    have hns : ¬ ((10 : ℚ) ≤ 150 / 23) := by norm_num
    simp [Deal.is_significant_deal, hns]
